import Mathlib

set_option synthInstance.maxHeartbeats 1000000

/-!
Shallow embedding of `src/main.py` of the unicorn-dave repository.

The program keeps an in-memory mapping from address strings to `House`
records in `st.session_state.house_db` (a Python `dict`, modelled here as
an association list with dict insertion semantics), exposes an async
lookup `DatabaseConn.house_price`, declares a pydantic output schema
`TaskOutput`, and wires a Streamlit form (save handler) and a run button
(`run_clicked` guard block plus the `_run` closure) around them.
Python strings are modelled as `List Char`, Python floats as `ℚ`,
Python ints as `ℤ`.
-/

namespace UnicornDave

/-- Python strings, modelled as lists of characters. -/
abbrev Str := List Char

/-- The whitespace characters removed by Python's `str.strip()`:
space, tab, newline, carriage return, vertical tab, form feed. -/
def isPySpace (c : Char) : Bool :=
  c = ' ' || c = '\t' || c = '\n' || c = '\r' || c = '\x0b' || c = '\x0c'

/-- Python's `str.strip()`: remove leading and trailing whitespace.
Leading whitespace is removed by `List.dropWhile`, trailing whitespace by
`List.rdropWhile` (drop-from-the-right). -/
def pyStrip (s : Str) : Str :=
  List.rdropWhile isPySpace (List.dropWhile isPySpace s)

/-- `House` dataclass of `src/main.py` (lines 14-20): address, price,
bedroom count, bathroom count, square footage. -/
structure House where
  address : Str
  price : ℚ
  num_bedrooms : ℤ
  num_bathrooms : ℤ
  square_feet : ℤ
  deriving DecidableEq

/-- The house database `st.session_state.house_db : Dict[str, House]`,
modelled as an association list in insertion order (Python dicts preserve
insertion order; `d[k] = v` overwrites in place or appends). -/
abbrev HouseDB := List (Str × House)

/-- Membership test `k in d` of a Python dict. -/
def hasKey (db : HouseDB) (k : Str) : Bool :=
  db.any (fun e => decide (e.1 = k))

/-- Python `d.get(k)`: the value at the first (only) entry whose key is
an exact match, else `None`. -/
def dbGet (db : HouseDB) (k : Str) : Option House :=
  (db.find? (fun e => decide (e.1 = k))).map Prod.snd

/-- Python `d[k] = v`: overwrite the entry for `k` in place when present,
otherwise append a new entry. -/
def dbInsert (db : HouseDB) (k : Str) (v : House) : HouseDB :=
  if hasKey db k then db.map (fun e => if e.1 = k then (k, v) else e)
  else db ++ [(k, v)]

/-- Number of stored records whose key is `k`. -/
def countKey (db : HouseDB) (k : Str) : Nat :=
  (db.filter (fun e => decide (e.1 = k))).length

/-- `_default_db` of `src/main.py` (lines 23-46): the three seed houses,
keyed by their addresses. -/
def _default_db : HouseDB :=
  [("123 Main St".toList,
    ⟨"123 Main St".toList, 350000, 3, 2, 1500⟩),
   ("456 Oak Ave".toList,
    ⟨"456 Oak Ave".toList, 450000, 4, 3, 2000⟩),
   ("789 Pine Rd".toList,
    ⟨"789 Pine Rd".toList, 250000, 2, 1, 900⟩)]

/-- Python exceptions raised by the embedded code: `ValueError(msg)`. -/
inductive PyErr where
  | valueError (msg : Str)
  deriving DecidableEq

/-- `DatabaseConn.house_price` of `src/main.py` (lines 52-56): look the
address up in the current store; if a house is found (a dataclass
instance is always truthy) return `float(house.price)`, otherwise raise
`ValueError("House not found")`.  The method reads
`st.session_state.house_db` afresh on every call; the state component of
the result is the store after the call, which the method body never
assigns to. -/
def DatabaseConn.house_price (db : HouseDB) (address : Str) :
    Except PyErr ℚ × HouseDB :=
  match dbGet db address with
  | some house => (Except.ok house.price, db)
  | none => (Except.error (PyErr.valueError "House not found".toList), db)

/-- Values a field of a pydantic model candidate may hold (the Python
primitives relevant to `TaskOutput`). -/
inductive PyVal where
  | str (s : Str)
  | int (n : ℤ)
  | bool (b : Bool)
  | float (q : ℚ)
  | pyNone
  deriving DecidableEq

/-- `TaskOutput` of `src/main.py` (lines 62-67): the declared pydantic
output schema — `response_text : str`, `pro_required : bool`,
`urgency : int`.  All three `Field` declarations carry only a
description; none declares a default and none declares a numeric
constraint (no `ge`/`le` on `urgency`). -/
structure TaskOutput where
  response_text : Str
  pro_required : Bool
  urgency : ℤ
  deriving DecidableEq

/-- A candidate output to be validated against the `TaskOutput` schema:
each declared field is either absent or holds some Python value. -/
structure RawOutput where
  response_text : Option PyVal
  pro_required : Option PyVal
  urgency : Option PyVal
  deriving DecidableEq

/-- Validation of a candidate against the declared `TaskOutput` schema:
every field is required (no defaults are declared in the source), each
field must hold a value of its declared primitive type, and no further
constraint is checked — in particular the 1-10 urgency range mentioned
in the field description is not validated (the source declares no range
check). -/
def TaskOutput.model_validate (r : RawOutput) : Except Str TaskOutput :=
  match r.response_text, r.pro_required, r.urgency with
  | some (PyVal.str s), some (PyVal.bool b), some (PyVal.int n) =>
      Except.ok ⟨s, b, n⟩
  | _, _, _ => Except.error "validation error".toList

/-- Whether validation succeeded. -/
def exceptIsOk (e : Except Str TaskOutput) : Bool :=
  match e with
  | Except.ok _ => true
  | Except.error _ => false

/-- Field holds a Python `str`. -/
def isStrVal (v : Option PyVal) : Bool :=
  match v with
  | some (PyVal.str _) => true
  | _ => false

/-- Field holds a Python `bool`. -/
def isBoolVal (v : Option PyVal) : Bool :=
  match v with
  | some (PyVal.bool _) => true
  | _ => false

/-- Field holds a Python `int`. -/
def isIntVal (v : Option PyVal) : Bool :=
  match v with
  | some (PyVal.int _) => true
  | _ => false

/-- `FakeOutput` dataclass of `src/main.py` (lines 70-72). -/
structure FakeOutput where
  output : TaskOutput
  deriving DecidableEq

/-- Message shown by the sidebar save handler. -/
inductive FormMsg where
  | errorMsg (m : Str)
  | successMsg (m : Str)
  deriving DecidableEq

/-- The `house_form` save handler of `src/main.py` (lines 127-138): if
`addr.strip()` is empty (falsy) show an error and leave the store alone;
otherwise store `House(address=addr.strip(), ...)` under the key
`addr.strip()` and show `f"Saved: {addr}"`. -/
def house_form_save (db : HouseDB) (addr : Str) (price : ℚ)
    (beds baths sqft : ℤ) : HouseDB × FormMsg :=
  if pyStrip addr = [] then
    (db, FormMsg.errorMsg "Please provide an address before saving.".toList)
  else
    (dbInsert db (pyStrip addr)
      ⟨pyStrip addr, price, beds, baths, sqft⟩,
     FormMsg.successMsg ("Saved: ".toList ++ addr))

/-- The fixed response text of the hardcoded `FakeOutput` returned by
`_run` in `src/main.py` (line 199). -/
def fake_response_text : Str :=
  "David kan je een API aanvragen en credits erop zetten en die met mij delen?".toList

/-- `_run` of `src/main.py` (lines 187-203).  The closure has access to
`user_prompt`, `selected_addr` and the `DatabaseConn` dependencies, but
its live body only constructs and returns the hardcoded
`FakeOutput(TaskOutput(...))`; the genuine `refiner_agent.run(...)` call
is commented out in the source. -/
def _run (user_prompt selected_addr : Str) (db : HouseDB) : FakeOutput :=
  FakeOutput.mk (TaskOutput.mk fake_response_text true 10)

/-- Number of calls to the underlying model provider made by one
execution of `_run`'s body in `src/main.py`: zero, because the
`refiner_agent.run(...)` invocation (the only provider call site) is
commented out and the body returns the hardcoded `FakeOutput`. -/
def _run_provider_calls : Nat := 0

/-- Python truthiness of the `openai_key` value (an optional string):
falsy when `None` or the empty string. -/
def pyTruthyKey (key : Option Str) : Bool :=
  match key with
  | none => false
  | some s => !s.isEmpty

/-- Observable outcome of one click of the run button: the store after
the handler, the validation message (if any), how many times the agent
closure `_run` was invoked, how many calls reached the model provider,
and the result rendered (if any). -/
structure RunOutcome where
  db : HouseDB
  errorMsg : Option Str
  agentInvocations : Nat
  providerCalls : Nat
  result : Option FakeOutput
  deriving DecidableEq

/-- Error shown when the provider credential is missing
(`src/main.py` lines 177-180). -/
def missing_key_msg : Str :=
  "Missing OPENAI_API_KEY. Set it as an environment variable or add to st.secrets to continue.".toList

/-- Error shown when the task description is empty
(`src/main.py` lines 181-182). -/
def empty_task_msg : Str :=
  "Please provide a task description.".toList

/-- The `run_clicked` handler of `src/main.py` (lines 176-218): guard on
a truthy `openai_key`, then on a non-empty `user_prompt.strip()`; only
when both guards pass is `_run` invoked (via `asyncio.run`).  No branch
assigns to `st.session_state.house_db`, so the store passes through
unchanged. -/
def run_clicked (db : HouseDB) (openai_key : Option Str)
    (user_prompt selected_addr : Str) : RunOutcome :=
  if pyTruthyKey openai_key = false then
    ⟨db, some missing_key_msg, 0, 0, none⟩
  else if pyStrip user_prompt = [] then
    ⟨db, some empty_task_msg, 0, 0, none⟩
  else
    ⟨db, none, 1, _run_provider_calls,
     some (_run user_prompt selected_addr db)⟩

/-- `true` when the string is empty or starts with a non-whitespace
character (no leading Python whitespace). -/
def noHeadSpace (s : Str) : Bool :=
  match s with
  | [] => true
  | c :: _ => !isPySpace c

/-- `true` when the string has neither leading nor trailing Python
whitespace. -/
def noEdgeSpace (s : Str) : Bool :=
  noHeadSpace s && noHeadSpace s.reverse

/-- A well-formed House Store entry: the record's `address` equals the
key, and the key is non-empty with no leading or trailing whitespace. -/
def entryOk (e : Str × House) : Prop :=
  e.2.address = e.1 ∧ e.1 ≠ [] ∧ noEdgeSpace e.1 = true

/-- Store-key invariant: every entry of the House Store is well formed. -/
def storeInv (db : HouseDB) : Prop :=
  ∀ e ∈ db, entryOk e

instance (e : Str × House) : Decidable (entryOk e) := by
  unfold entryOk
  infer_instance

instance (db : HouseDB) : Decidable (storeInv db) := by
  unfold storeInv
  exact List.decidableBAll _ db

/-- Substring test: `needle` starts the string. -/
def startsWith : Str → Str → Bool
  | [], _ => true
  | _ :: _, [] => false
  | c :: cs, d :: ds => c = d && startsWith cs ds

/-- Substring test: does `hay` contain `needle` as a contiguous
substring?  Used to formalise an error value "carrying" an address. -/
def strContains (hay needle : Str) : Bool :=
  match hay with
  | [] => startsWith needle []
  | _ :: t => startsWith needle hay || strContains t needle

/-! Helper lemmas about the dict model. -/

theorem hasKey_false_of_mem {db : HouseDB} {k : Str}
    (h : hasKey db k = false) : ∀ e ∈ db, e.1 ≠ k := by
  intro e he
  have := List.any_eq_false.mp h e he
  simpa using this

theorem dbGet_map_overwrite {db : HouseDB} {k : Str} {v : House}
    (h : hasKey db k = true) :
    dbGet (db.map (fun e => if e.1 = k then (k, v) else e)) k = some v := by
  induction db with
  | nil => simp [hasKey] at h
  | cons e t ih =>
    by_cases hk : e.1 = k
    · simp [dbGet, hk, List.find?_cons_of_pos]
    · have h' : hasKey t k = true := by
        simpa [hasKey, hk] using h
      have := ih h'
      simpa [dbGet, hk, List.find?_cons_of_neg] using this

theorem dbGet_append_new {db : HouseDB} {k : Str} {v : House}
    (h : hasKey db k = false) :
    dbGet (db ++ [(k, v)]) k = some v := by
  induction db with
  | nil => simp [dbGet]
  | cons e t ih =>
    have hk : e.1 ≠ k := hasKey_false_of_mem h e (by simp)
    have h' : hasKey t k = false := by
      rcases Bool.eq_false_or_eq_true (hasKey t k) with h0 | h1
      · exfalso
        obtain ⟨x, hx, hxk⟩ := List.any_eq_true.mp h0
        exact hasKey_false_of_mem h x (by simp [hx]) (by simpa using hxk)
      · exact h1
    have := ih h'
    simpa [dbGet, hk, List.find?_cons_of_neg] using this

theorem dbGet_dbInsert_self (db : HouseDB) (k : Str) (v : House) :
    dbGet (dbInsert db k v) k = some v := by
  unfold dbInsert
  by_cases h : hasKey db k = true
  · rw [if_pos h]
    exact dbGet_map_overwrite h
  · rw [if_neg h]
    exact dbGet_append_new (Bool.eq_false_iff.mpr h)

theorem countKey_map_overwrite (db : HouseDB) (k : Str) (v : House) :
    countKey (db.map (fun e => if e.1 = k then (k, v) else e)) k
      = countKey db k := by
  induction db with
  | nil => rfl
  | cons e t ih =>
    by_cases hk : e.1 = k
    · simp [countKey, List.filter_cons, hk] at ih ⊢
      exact ih
    · simp [countKey, List.filter_cons, hk] at ih ⊢
      exact ih

theorem countKey_eq_zero_of_not_mem {db : HouseDB} {k : Str}
    (h : k ∉ db.map Prod.fst) : countKey db k = 0 := by
  induction db with
  | nil => rfl
  | cons e t ih =>
    have hk : e.1 ≠ k := by
      intro hek
      exact h (by simp [hek.symm])
    have h' : k ∉ t.map Prod.fst := by
      intro hm
      exact h (by simp [hm])
    have ht := ih h'
    simp only [countKey, List.filter_cons, hk, decide_eq_true_eq, if_false]
    simpa [countKey] using ht

theorem countKey_of_nodup_hasKey {db : HouseDB} {k : Str}
    (hnd : (db.map Prod.fst).Nodup) (h : hasKey db k = true) :
    countKey db k = 1 := by
  induction db with
  | nil => simp [hasKey] at h
  | cons e t ih =>
    have hnd2 : (e.1 :: t.map Prod.fst).Nodup := by
      simpa only [List.map_cons] using hnd
    rcases List.nodup_cons.mp hnd2 with ⟨hnm, hnd'⟩
    by_cases hk : e.1 = k
    · have hz : countKey t k = 0 :=
        countKey_eq_zero_of_not_mem (by rwa [hk] at hnm)
      simp [countKey, List.filter_cons, hk]
      simpa [countKey] using hz
    · have h' : hasKey t k = true := by simpa [hasKey, hk] using h
      have := ih hnd' h'
      simpa [countKey, List.filter_cons, hk] using this

theorem keys_map_overwrite (db : HouseDB) (k : Str) (v : House) :
    (db.map (fun e => if e.1 = k then (k, v) else e)).map Prod.fst
      = db.map Prod.fst := by
  induction db with
  | nil => rfl
  | cons e t ih =>
    by_cases hk : e.1 = k <;> simp [hk, ih]

theorem nodup_keys_dbInsert (db : HouseDB) (k : Str) (v : House)
    (hnd : (db.map Prod.fst).Nodup) :
    ((dbInsert db k v).map Prod.fst).Nodup := by
  unfold dbInsert
  by_cases h : hasKey db k = true
  · rw [if_pos h, keys_map_overwrite]
    exact hnd
  · rw [if_neg h]
    have hnm : k ∉ db.map Prod.fst := by
      intro hm
      obtain ⟨e, he, hek⟩ := List.mem_map.mp hm
      exact hasKey_false_of_mem (Bool.eq_false_iff.mpr h) e he hek
    have : (db ++ [(k, v)]).map Prod.fst = db.map Prod.fst ++ [k] := by simp
    rw [this]
    exact (List.perm_append_singleton k (db.map Prod.fst)).nodup_iff.mpr
      (List.nodup_cons.mpr ⟨hnm, hnd⟩)

theorem hasKey_dbInsert_self (db : HouseDB) (k : Str) (v : House) :
    hasKey (dbInsert db k v) k = true := by
  have h := dbGet_dbInsert_self db k v
  unfold dbGet at h
  rcases hf : (dbInsert db k v).find? (fun e => decide (e.1 = k)) with _ | e
  · rw [hf] at h
    simp at h
  · have hm := List.mem_of_find?_eq_some hf
    have hp := List.find?_some hf
    exact List.any_eq_true.mpr ⟨e, hm, hp⟩

theorem mem_dbInsert {db : HouseDB} {k : Str} {v : House}
    {e : Str × House} (he : e ∈ dbInsert db k v) :
    e ∈ db ∨ e = (k, v) := by
  unfold dbInsert at he
  split at he
  · obtain ⟨x, hx, hxe⟩ := List.mem_map.mp he
    by_cases hk : x.1 = k
    · right
      rw [← hxe]
      simp [hk]
    · left
      rw [← hxe]
      simpa [hk] using hx
  · rcases List.mem_append.mp he with h | h
    · exact Or.inl h
    · right
      simpa using h

/-! Helper lemmas about `pyStrip`. -/

theorem noHeadSpace_dropWhile (l : Str) :
    noHeadSpace (List.dropWhile isPySpace l) = true := by
  induction l with
  | nil => rfl
  | cons c t ih =>
    by_cases h : isPySpace c = true
    · simpa [List.dropWhile_cons, h] using ih
    · simp [List.dropWhile_cons, h, noHeadSpace]


theorem noHeadSpace_rdropWhile {t : Str} (h : noHeadSpace t = true) :
    noHeadSpace (List.rdropWhile isPySpace t) = true := by
  cases hr : List.rdropWhile isPySpace t with
  | nil => rfl
  | cons c rest =>
    obtain ⟨u, hu⟩ := List.rdropWhile_prefix isPySpace t
    rw [hr] at hu
    rw [← hu] at h
    simpa [noHeadSpace] using h

theorem noEdgeSpace_pyStrip (s : Str) : noEdgeSpace (pyStrip s) = true := by
  unfold noEdgeSpace pyStrip
  rw [Bool.and_eq_true]
  constructor
  · exact noHeadSpace_rdropWhile (noHeadSpace_dropWhile s)
  · have : (List.rdropWhile isPySpace (List.dropWhile isPySpace s)).reverse
        = List.dropWhile isPySpace (List.dropWhile isPySpace s).reverse := by
      simp [List.rdropWhile]
    rw [this]
    exact noHeadSpace_dropWhile _

theorem pyStrip_eq_nil_of_all_space {addr : Str}
    (h : ∀ c ∈ addr, isPySpace c = true) : pyStrip addr = [] := by
  unfold pyStrip
  have h1 : List.dropWhile isPySpace addr = [] :=
    List.dropWhile_eq_nil_iff.mpr h
  rw [h1]
  simp

theorem countKey_dbInsert_of_nodup (db : HouseDB) (k : Str) (v : House)
    (hnd : (db.map Prod.fst).Nodup) :
    countKey (dbInsert db k v) k = 1 :=
  countKey_of_nodup_hasKey (nodup_keys_dbInsert db k v hnd)
    (hasKey_dbInsert_self db k v)

/-! Claim theorems. -/

/-- C1: for every address present as an exact-match key in the House
Store, `price_of` (`DatabaseConn.house_price`) returns exactly the price
most recently saved for it.  Since every call re-reads the current
store, a lookup performed right after any save — on top of an arbitrary
earlier store, hence also after the agent/service was constructed —
returns the price of that latest save. -/
theorem price_of_returns_most_recent_save (db : HouseDB) (addr : Str)
    (p : ℚ) (b ba s : ℤ) (h : pyStrip addr ≠ []) :
    (DatabaseConn.house_price (house_form_save db addr p b ba s).1
        (pyStrip addr)).1 = Except.ok p := by
  simp only [house_form_save, if_neg h]
  simp [DatabaseConn.house_price, dbGet_dbInsert_self]

/-- Witness for C1: saving "100 Elm St" at price 500000 on top of the
seed store and reading it back yields 500000. -/
theorem price_of_returns_most_recent_save_witness :
    pyStrip "100 Elm St".toList ≠ [] ∧
    (DatabaseConn.house_price
        (house_form_save _default_db "100 Elm St".toList 500000 3 2 1200).1
        (pyStrip "100 Elm St".toList)).1 = Except.ok 500000 :=
  ⟨by decide,
   price_of_returns_most_recent_save _default_db "100 Elm St".toList
     500000 3 2 1200 (by decide)⟩

/-- C2 counterexample: the claim says the NotFound failure carries the
offending address.  At the concrete absent address "999 Unknown Ave"
the lookup does fail, but with the constant message "House not found",
which does not contain the offending address as a substring. -/
theorem notfound_error_lacks_address_cex :
    dbGet _default_db "999 Unknown Ave".toList = none ∧
    (DatabaseConn.house_price _default_db "999 Unknown Ave".toList).1
      = Except.error (PyErr.valueError "House not found".toList) ∧
    strContains "House not found".toList "999 Unknown Ave".toList = false :=
  ⟨by decide, rfl, by decide⟩

/-- C2 amended: for every address absent from the House Store (exact
match; a case variant, extra whitespace or a partial match of a stored
key is absent), `price_of` fails with `ValueError` carrying the constant
message "House not found" — not the offending address — and the store is
unaffected. -/
theorem notfound_error_is_constant_message (db : HouseDB) (a : Str)
    (h : dbGet db a = none) :
    (DatabaseConn.house_price db a).1
      = Except.error (PyErr.valueError "House not found".toList) ∧
    (DatabaseConn.house_price db a).2 = db := by
  unfold DatabaseConn.house_price
  rw [h]
  exact ⟨rfl, rfl⟩

/-- Witness for C2 (amended): the case variant "123 MAIN ST" of the
stored key "123 Main St" is absent and fails with the constant
message. -/
theorem notfound_error_is_constant_message_witness :
    dbGet _default_db "123 MAIN ST".toList = none ∧
    ((DatabaseConn.house_price _default_db "123 MAIN ST".toList).1
       = Except.error (PyErr.valueError "House not found".toList) ∧
     (DatabaseConn.house_price _default_db "123 MAIN ST".toList).2
       = _default_db) :=
  ⟨by decide,
   notfound_error_is_constant_message _default_db "123 MAIN ST".toList
     (by decide)⟩

/-- C3 (code bug evidence): a run invocation that passes both input
guards invokes the agent closure `_run` once, yet makes zero calls to
the underlying model provider and returns the hardcoded `FakeOutput` —
the genuine `refiner_agent.run` call is commented out in the source, so
the "exactly one provider call per run, errors propagate" behavior the
spec describes does not happen. -/
theorem stub_run_zero_provider_calls :
    (run_clicked _default_db (some "sk-test-key".toList)
        "I want to put up two large paintings, how to do that?".toList
        []).agentInvocations = 1 ∧
    (run_clicked _default_db (some "sk-test-key".toList)
        "I want to put up two large paintings, how to do that?".toList
        []).providerCalls = 0 ∧
    (run_clicked _default_db (some "sk-test-key".toList)
        "I want to put up two large paintings, how to do that?".toList
        []).result
      = some (FakeOutput.mk (TaskOutput.mk fake_response_text true 10)) :=
  ⟨rfl, rfl, rfl⟩

/-- C4: saving the same address twice with different attribute values
(on any store whose keys are distinct, as Python dict keys are) leaves
exactly one stored record for that address, and its attributes are
exactly those of the second save — last write wins. -/
theorem second_save_last_write_wins (db : HouseDB) (addr : Str)
    (p₁ p₂ : ℚ) (b₁ b₂ ba₁ ba₂ s₁ s₂ : ℤ)
    (hnd : (db.map Prod.fst).Nodup) (hne : pyStrip addr ≠ [])
    (hdiff : (p₁, b₁, ba₁, s₁) ≠ (p₂, b₂, ba₂, s₂)) :
    countKey (house_form_save
        (house_form_save db addr p₁ b₁ ba₁ s₁).1 addr p₂ b₂ ba₂ s₂).1
      (pyStrip addr) = 1 ∧
    dbGet (house_form_save
        (house_form_save db addr p₁ b₁ ba₁ s₁).1 addr p₂ b₂ ba₂ s₂).1
      (pyStrip addr)
      = some ⟨pyStrip addr, p₂, b₂, ba₂, s₂⟩ := by
  simp only [house_form_save, if_neg hne]
  exact ⟨countKey_dbInsert_of_nodup _ _ _
           (nodup_keys_dbInsert db _ _ hnd),
         dbGet_dbInsert_self _ _ _⟩

/-- Witness for C4: overwriting the seed entry "123 Main St" twice
leaves one record carrying the attributes of the second save. -/
theorem second_save_last_write_wins_witness :
    (_default_db.map Prod.fst).Nodup ∧
    pyStrip "123 Main St".toList ≠ [] ∧
    ((350000 : ℚ), (3 : ℤ), (2 : ℤ), (1500 : ℤ))
      ≠ ((360000 : ℚ), (4 : ℤ), (2 : ℤ), (1500 : ℤ)) ∧
    (countKey (house_form_save
        (house_form_save _default_db "123 Main St".toList
          350000 3 2 1500).1 "123 Main St".toList 360000 4 2 1500).1
      (pyStrip "123 Main St".toList) = 1 ∧
     dbGet (house_form_save
        (house_form_save _default_db "123 Main St".toList
          350000 3 2 1500).1 "123 Main St".toList 360000 4 2 1500).1
      (pyStrip "123 Main St".toList)
      = some ⟨pyStrip "123 Main St".toList, 360000, 4, 2, 1500⟩) :=
  ⟨by decide, by decide, by decide,
   second_save_last_write_wins _default_db "123 Main St".toList
     350000 360000 3 4 2 2 1500 1500 (by decide) (by decide) (by decide)⟩

/-- C5: validation against the declared `TaskOutput` schema succeeds
exactly when all three fields are present with their declared primitive
types (so a missing field or a wrong primitive type is rejected), and
every integer urgency value is accepted unchanged — including values
outside 1-10, since the source declares no range constraint. -/
theorem task_output_validation_spec :
    (∀ r : RawOutput,
        exceptIsOk (TaskOutput.model_validate r)
          = (isStrVal r.response_text && isBoolVal r.pro_required
              && isIntVal r.urgency)) ∧
    (∀ (s : Str) (b : Bool) (n : ℤ),
        TaskOutput.model_validate
            (RawOutput.mk (some (PyVal.str s)) (some (PyVal.bool b))
              (some (PyVal.int n)))
          = Except.ok (TaskOutput.mk s b n)) := by
  constructor
  · intro r
    rcases r with ⟨_ | vt, _ | vp, _ | vu⟩ <;>
      (try cases vt) <;> (try cases vp) <;> (try cases vu) <;> rfl
  · intro s b n
    rfl

/-- C6: when the credential guard or the non-empty-task guard fails,
the run click makes no provider call, attempts no agent invocation, and
shows a validation message. -/
theorem guard_failure_blocks_agent_call (db : HouseDB)
    (key : Option Str) (up sa : Str)
    (h : pyTruthyKey key = false ∨ pyStrip up = []) :
    (run_clicked db key up sa).providerCalls = 0 ∧
    (run_clicked db key up sa).agentInvocations = 0 ∧
    (run_clicked db key up sa).errorMsg.isSome = true := by
  rcases h with h | h
  · simp [run_clicked, h]
  · by_cases hk : pyTruthyKey key = false
    · simp [run_clicked, hk]
    · simp [run_clicked, hk, h]

/-- Witness for C6: clicking run with no credential set attempts
nothing and shows a message. -/
theorem guard_failure_blocks_agent_call_witness :
    pyTruthyKey none = false ∧
    ((run_clicked _default_db none "fix the sink".toList []).providerCalls
        = 0 ∧
     (run_clicked _default_db none
        "fix the sink".toList []).agentInvocations = 0 ∧
     (run_clicked _default_db none
        "fix the sink".toList []).errorMsg.isSome = true) :=
  ⟨by decide,
   guard_failure_blocks_agent_call _default_db none "fix the sink".toList
     [] (Or.inl (by decide))⟩

/-- C7: a save whose address is empty or consists only of whitespace is
rejected with the validation message and the House Store is left
completely unchanged (same entries, hence same cardinality). -/
theorem blank_address_save_rejected (db : HouseDB) (addr : Str)
    (p : ℚ) (b ba s : ℤ) (h : ∀ c ∈ addr, isPySpace c = true) :
    (house_form_save db addr p b ba s).1 = db ∧
    (house_form_save db addr p b ba s).2
      = FormMsg.errorMsg "Please provide an address before saving.".toList := by
  have hs := pyStrip_eq_nil_of_all_space h
  simp [house_form_save, hs]

/-- Witness for C7: saving with a three-space address changes nothing
and shows the validation message. -/
theorem blank_address_save_rejected_witness :
    (∀ c ∈ "   ".toList, isPySpace c = true) ∧
    ((house_form_save _default_db "   ".toList 350000 3 2 1200).1
        = _default_db ∧
     (house_form_save _default_db "   ".toList 350000 3 2 1200).2
        = FormMsg.errorMsg
            "Please provide an address before saving.".toList) :=
  ⟨by decide,
   blank_address_save_rejected _default_db "   ".toList 350000 3 2 1200
     (by decide)⟩

/-- C8: the House Store is never mutated by a read path — every
`house_price` call returns the store unchanged — and a run click leaves
the House Store exactly as it was, on every branch (guard failures and
the invocation branch alike). -/
theorem read_and_run_never_mutate_store (db : HouseDB) (a : Str)
    (key : Option Str) (up sa : Str) :
    (DatabaseConn.house_price db a).2 = db ∧
    (run_clicked db key up sa).db = db := by
  constructor
  · unfold DatabaseConn.house_price
    split <;> rfl
  · unfold run_clicked
    split
    · rfl
    · split <;> rfl

/-- C9: the run operation as implemented is a constant function — any
two invocations that pass the input guards return the identical result,
namely the hardcoded `FakeOutput` wrapping
`TaskOutput(response_text=..., pro_required=True, urgency=10)`,
whatever the user prompt, selected address, or House Store contents. -/
theorem run_is_constant_function (db₁ db₂ : HouseDB)
    (k₁ k₂ : Option Str) (up₁ up₂ sa₁ sa₂ : Str)
    (h₁ : pyTruthyKey k₁ = true) (h₂ : pyStrip up₁ ≠ [])
    (h₃ : pyTruthyKey k₂ = true) (h₄ : pyStrip up₂ ≠ []) :
    (run_clicked db₁ k₁ up₁ sa₁).result
      = (run_clicked db₂ k₂ up₂ sa₂).result ∧
    (run_clicked db₁ k₁ up₁ sa₁).result
      = some (FakeOutput.mk (TaskOutput.mk fake_response_text true 10)) := by
  simp [run_clicked, h₁, h₂, h₃, h₄, _run]

/-- Witness for C9: two guard-passing invocations with different
stores, credentials, prompts and addresses produce the same fixed
result. -/
theorem run_is_constant_function_witness :
    pyTruthyKey (some "sk-1".toList) = true ∧
    pyStrip "hang two paintings".toList ≠ [] ∧
    pyTruthyKey (some "sk-2".toList) = true ∧
    pyStrip "renovate the kitchen".toList ≠ [] ∧
    ((run_clicked _default_db (some "sk-1".toList)
        "hang two paintings".toList "123 Main St".toList).result
      = (run_clicked [] (some "sk-2".toList)
          "renovate the kitchen".toList []).result ∧
     (run_clicked _default_db (some "sk-1".toList)
        "hang two paintings".toList "123 Main St".toList).result
      = some (FakeOutput.mk (TaskOutput.mk fake_response_text true 10))) :=
  ⟨by decide, by decide, by decide, by decide,
   run_is_constant_function _default_db [] (some "sk-1".toList)
     (some "sk-2".toList) "hang two paintings".toList
     "renovate the kitchen".toList "123 Main St".toList []
     (by decide) (by decide) (by decide) (by decide)⟩

/-- C10: store-key invariant — every entry's record address equals its
key and every key is non-empty with no leading or trailing whitespace;
this holds for the three seed entries and is preserved by every save
(the handler strips the address and uses it both as key and as the
record's address field). -/
theorem store_key_invariant_holds :
    storeInv _default_db ∧
    ∀ (db : HouseDB) (addr : Str) (p : ℚ) (b ba s : ℤ),
      storeInv db → storeInv (house_form_save db addr p b ba s).1 := by
  constructor
  · decide
  · intro db addr p b ba s hinv
    by_cases hs : pyStrip addr = []
    · simpa [house_form_save, hs] using hinv
    · simp only [house_form_save, if_neg hs]
      intro e he
      rcases mem_dbInsert he with h | h
      · exact hinv e h
      · rw [h]
        exact ⟨rfl, hs, noEdgeSpace_pyStrip addr⟩

/-- Witness for C10: saving an address with surrounding whitespace on
top of the seed store keeps the invariant. -/
theorem store_key_invariant_holds_witness :
    storeInv (house_form_save _default_db "  100 Elm St ".toList
      500000 3 2 1200).1 :=
  store_key_invariant_holds.2 _default_db "  100 Elm St ".toList
    500000 3 2 1200 (by decide)

end UnicornDave
